import Mathlib

/-!
# Verification of the test-result aggregation and publication subsystem

Shallow embedding of the core of an education-center CRUD backend:
the TestResult save hook (score normalization and averaging), the
test-result routes (create, full update, publish toggle, paginated list),
and the corresponding Graduate/Achievement publish and update routes.

JavaScript numbers are modelled as rationals (`ℚ`); a field that may be
`undefined` is an `Option`.  JS truthiness on numbers (`undefined` and `0`
are falsy) is made explicit.  `Math.round` is Mathlib's `round`, which
rounds halves up exactly as JS does.
-/

/-- JS numeric falsiness: `undefined` and `0` are falsy, every other
number is truthy (no NaN arises in the modelled code paths). -/
def jsFalsy (v : Option ℚ) : Bool :=
  match v with
  | none => true
  | some q => q == 0

/-- JS `Math.round` on a rational, returned as a rational:
`⌊q + 1/2⌋`, which rounds halves toward `+∞` exactly as JS
`Math.round`.  Written with the executable `Rat.floor` so that concrete
instances evaluate; `jsRound_eq_round` below ties it to Mathlib's
`round`. -/
def jsRound (q : ℚ) : ℚ := ((q + 1 / 2).floor : ℚ)

/-- One element of `TestResult.results` (src/models/TestResult.js,
schema lines 18–43): `student` is a reference (modelled as an id),
`score` is required with `min 0`, `maxScore` has `default 100, min 1`,
`percentage` is optional with range 0–100.  Fields are `Option` so that
a raw request-body entry, before schema defaults and validation, is
representable. -/
structure ResultEntry where
  student : Option Nat
  score : Option ℚ
  maxScore : Option ℚ
  percentage : Option ℚ
  deriving Repr, DecidableEq

/-- Mongoose applies the subdocument default `maxScore: 100` when the
path is unset at document construction / update casting; an explicitly
supplied value (even an invalid `0`) is kept. -/
def applyEntryDefaults (r : ResultEntry) : ResultEntry :=
  { r with maxScore := some (r.maxScore.getD 100) }

/-- The `forEach` body of the pre-save hook (TestResult.js lines 77–81):
`if (!result.percentage && result.score !== undefined && result.maxScore)
   result.percentage = Math.round((result.score / result.maxScore) * 100)`.
`!result.percentage` is JS falsiness, so a supplied percentage of `0`
also triggers recomputation; `result.maxScore` must be truthy (nonzero
and present), which guards the division. -/
def normalizeEntry (r : ResultEntry) : ResultEntry :=
  if jsFalsy r.percentage && r.score.isSome && !jsFalsy r.maxScore then
    { r with percentage := some (jsRound (r.score.getD 0 / r.maxScore.getD 0 * 100)) }
  else r

/-- The reducer body (TestResult.js lines 84–86):
`sum + (result.percentage || Math.round((result.score / (result.maxScore || 100)) * 100))`.
A falsy percentage falls through to the recomputation, whose divisor is
`maxScore || 100`, never zero.  If `score` is `undefined` the JS
expression is NaN; that is modelled as `none`. -/
def entryContribution (r : ResultEntry) : Option ℚ :=
  if !jsFalsy r.percentage then r.percentage
  else r.score.map (fun s =>
    jsRound (s / (if jsFalsy r.maxScore then 100 else r.maxScore.getD 0) * 100))

/-- The fold `results.reduce((sum, result) => sum + …, 0)`, with NaN
(`none`) propagating through the sum. -/
def sumContributions : List ResultEntry → Option ℚ
  | [] => some 0
  | r :: rs =>
    match entryContribution r, sumContributions rs with
    | some a, some b => some (a + b)
    | _, _ => none

/-- A stored TestResult document (src/models/TestResult.js).  Dates are
modelled as naturals; `averageScore` is `Option` because the schema
gives it no default (`none` also stands for a NaN that the hook could
produce from an undefined score). -/
structure TestResult where
  id : Nat
  group : Nat
  testName : String
  testDate : Nat
  results : List ResultEntry
  averageScore : Option ℚ
  totalStudents : ℚ
  isPublished : Bool
  createdAt : Nat
  updatedAt : Nat
  deriving Repr, DecidableEq

/-- Schema default `isPublished: false` for TestResult
(TestResult.js lines 57–60). -/
def testResultPublishedDefault : Bool := false

/-- The `pre('save')` hook (TestResult.js lines 71–95): set `updatedAt`,
then if `results` is nonempty recompute each entry's percentage, sum the
contributions, and set `averageScore` (the unrounded mean) and
`totalStudents`; otherwise set both to `0`.  Runs on `save()` only —
`findByIdAndUpdate` does not trigger it. -/
def preSaveTestResult (t : TestResult) (now : Nat) : TestResult :=
  let t := { t with updatedAt := now }
  if t.results.length > 0 then
    let results := t.results.map normalizeEntry
    let totalPercentage := sumContributions results
    { t with
      results := results
      averageScore := totalPercentage.map (fun s => s / (results.length : ℚ))
      totalStudents := (results.length : ℚ) }
  else
    { t with averageScore := some 0, totalStudents := 0 }

/-- A stored Group document: only the fields this subsystem reads
(`_id` and the owning `subject` reference, src/models/Group.js).
Named `GroupDoc` because Mathlib already owns `Group`. -/
structure GroupDoc where
  id : Nat
  subject : Nat
  deriving Repr, DecidableEq

/-- The slice of the document store the test-result routes touch:
existing groups, existing student ids, and the TestResult collection
(kept in insertion order; queries sort explicitly). -/
structure Store where
  groups : List GroupDoc
  students : List Nat
  testResults : List TestResult
  deriving Repr, DecidableEq

/-- The store call `Group.findById` (routes, testResults.js): lookup by id. -/
def findGroupById (st : Store) (g : Nat) : Option GroupDoc :=
  st.groups.find? (fun x => x.id == g)

/-- The store call `Student.findById` reduced to existence, which is all
the routes use. -/
def studentExists (st : Store) (s : Nat) : Bool :=
  st.students.contains s

/-- The error responses of the test-result create/update handlers
(routes/testResults.js), by the branch that produced them.  All are
returned with HTTP 400 except `notFound` (404). -/
inductive ApiError where
  | missingFields
  | groupNotFound
  | invalidResult
  | studentNotFound (id : Nat)
  | notFound
  deriving Repr, DecidableEq

/-- The literal message strings of routes/testResults.js. -/
def errorMessage : ApiError → String
  | .missingFields => "Group, test name, test date, and results array are required"
  | .groupNotFound => "Group not found"
  | .invalidResult => "Each result must have a valid student and score (0 or higher)"
  | .studentNotFound id => "Student with ID " ++ toString id ++ " not found"
  | .notFound => "Test result not found"

/-- Request body of POST/PUT /api/test-results.  Presence of a field is
modelled by `some`; the handler's `!group || !testName || …` requiredness
check is modelled as presence (empty-string falsiness is not exercised
by any claim). -/
structure TestResultBody where
  group : Option Nat
  testName : Option String
  testDate : Option Nat
  results : Option (List ResultEntry)
  isPublished : Option Bool
  deriving Repr, DecidableEq

/-- The per-entry check `!result.student || result.score === undefined
|| result.score < 0` of the validation loop (testResults.js lines 110
and 170). -/
def entryInvalid (r : ResultEntry) : Bool :=
  r.student.isNone || r.score.isNone || decide (r.score.getD 0 < 0)

/-- The `for (const result of results)` validation loop shared by POST
and PUT (testResults.js lines 109–123 and 169–183): per entry, first
`entryInvalid`, then `Student.findById` existence; the first failing
entry's error is returned, later entries are not examined. -/
def validateResults (st : Store) : List ResultEntry → Option ApiError
  | [] => none
  | r :: rs =>
    if entryInvalid r then
      some .invalidResult
    else if !studentExists st (r.student.getD 0) then
      some (.studentNotFound (r.student.getD 0))
    else validateResults st rs

/-- POST /api/test-results (testResults.js lines 92–149): required-field
check, group existence, the validation loop, then construct the document
(schema defaults applied to the results subdocuments, `isPublished:
isPublished || false`) and `save()` — which runs the pre-save hook —
appending it to the collection.  On any error the store is returned
unchanged: the insert sits after every check. -/
def createTestResult (st : Store) (b : TestResultBody) (now newId : Nat) :
    Store × Except ApiError TestResult :=
  match b.group, b.testName, b.testDate, b.results with
  | some g, some name, some date, some rs =>
    if (findGroupById st g).isNone then (st, .error .groupNotFound)
    else
      match validateResults st rs with
      | some e => (st, .error e)
      | none =>
        let doc : TestResult :=
          { id := newId
            group := g
            testName := name
            testDate := date
            results := rs.map applyEntryDefaults
            averageScore := none
            totalStudents := 0
            isPublished := b.isPublished.getD false
            createdAt := now
            updatedAt := now }
        let saved := preSaveTestResult doc now
        ({ st with testResults := st.testResults ++ [saved] }, .ok saved)
  | _, _, _, _ => (st, .error .missingFields)

/-- The update document of PUT /api/test-results/:id (testResults.js
lines 185–196) applied to the stored document, as
`findByIdAndUpdate` does: the patch sets `group, testName, testDate,
results, description, isPublished, updatedAt` and nothing else.
`averageScore` and `totalStudents` are not in the patch, and
`findByIdAndUpdate` does NOT fire the schema's `pre('save')` hook, so
neither the percentage normalization nor the average recomputation
runs; update casting still applies the subdocument default for
`maxScore`.  `isPublished !== undefined ? isPublished : false`. -/
def applyTestResultUpdate (t : TestResult) (g : Nat) (name : String)
    (date : Nat) (rs : List ResultEntry) (pub : Option Bool) (now : Nat) :
    TestResult :=
  { t with
    group := g
    testName := name
    testDate := date
    results := rs.map applyEntryDefaults
    isPublished := pub.getD false
    updatedAt := now }

/-- PUT /api/test-results/:id (testResults.js lines 152–213): the same
required-field, group and results validation as POST, then
`findByIdAndUpdate(id, patch, { new: true, runValidators: true })`,
404 when the id is absent. -/
def updateTestResult (st : Store) (tid : Nat) (b : TestResultBody)
    (now : Nat) : Store × Except ApiError TestResult :=
  match b.group, b.testName, b.testDate, b.results with
  | some g, some name, some date, some rs =>
    if (findGroupById st g).isNone then (st, .error .groupNotFound)
    else
      match validateResults st rs with
      | some e => (st, .error e)
      | none =>
        match st.testResults.find? (fun t => t.id == tid) with
        | none => (st, .error .notFound)
        | some t =>
          let updated := applyTestResultUpdate t g name date rs b.isPublished now
          ({ st with
              testResults := st.testResults.map
                (fun u => if u.id == tid then updated else u) },
            .ok updated)
  | _, _, _, _ => (st, .error .missingFields)

/-- PATCH /api/test-results/:id/publish (testResults.js lines 216–242):
flip `isPublished`, set `updatedAt`, then `save()` — so the pre-save
hook runs and overwrites `updatedAt` again and recomputes the derived
fields. -/
def toggleTestResultPublish (t : TestResult) (now : Nat) : TestResult :=
  preSaveTestResult { t with isPublished := !t.isPublished, updatedAt := now } now

/-- The `pagination` object every list handler builds (identical shape in
routes/testResults.js lines 54–61, routes/graduates.js lines 88–95 and
routes/achievements.js). -/
structure Pagination where
  currentPage : Nat
  totalPages : Nat
  totalItems : Nat
  itemsPerPage : Nat
  hasNextPage : Bool
  hasPrevPage : Bool
  deriving Repr, DecidableEq

/-- JS `Math.ceil(total / limit)` over JS numbers, as a natural,
written with the executable `Rat.floor` (`⌈x⌉ = -⌊-x⌋`);
`jsCeilDiv_eq_ceil` below ties it to Mathlib's `⌈⬝⌉`.  (For `limit = 0`
JS would produce Infinity/NaN; no route or claim exercises that, and
rational division by zero makes it `0` here.) -/
def jsCeilDiv (total limit : Nat) : Nat :=
  (-(Rat.floor (-((total : ℚ) / (limit : ℚ))))).toNat

/-- The pagination object from the parsed `page`, `limit` and the
`total` the handler computed. -/
def mkPagination (page limit total : Nat) : Pagination :=
  { currentPage := page
    totalPages := jsCeilDiv total limit
    totalItems := total
    itemsPerPage := limit
    hasNextPage := page < jsCeilDiv total limit
    hasPrevPage := 1 < page }

/-- Insertion step of descending sort by a natural key. -/
def insertDescBy (key : α → Nat) (x : α) : List α → List α
  | [] => [x]
  | y :: ys => if key y ≤ key x then x :: y :: ys else y :: insertDescBy key x ys

/-- The store's `sort({ createdAt: -1 })`: descending insertion sort by
the given key. -/
def sortDescBy (key : α → Nat) (l : List α) : List α :=
  l.foldr (insertDescBy key) []

/-- Parsed query string of GET /api/test-results (testResults.js line
11): `groupId`, `subjectId`, `published` (already decoded from the
`'true'` string comparison), and `page`/`limit` after `parseInt` with
defaults 1 and 10. -/
structure TestResultListQuery where
  groupId : Option Nat
  subjectId : Option Nat
  published : Option Bool
  page : Nat
  limit : Nat
  deriving Repr, DecidableEq

/-- The mongo `query` object built on testResults.js lines 12–20:
`group` equality when `groupId` given, `isPublished` equality when
`published` given.  (`subjectId` is NOT part of it.) -/
def matchesTestResultQuery (q : TestResultListQuery) (t : TestResult) : Bool :=
  (match q.groupId with
   | some g => t.group == g
   | none => true) &&
  (match q.published with
   | some p => t.isPublished == p
   | none => true)

/-- The subject id reached by `populate({ path: 'group', populate:
{ path: 'subject' } })`: resolve the group reference, then its subject
reference.  A dangling group gives `none` (no claim exercises dangling
references; in JS that access would throw into the 500 handler). -/
def populatedSubject (st : Store) (t : TestResult) : Option Nat :=
  (findGroupById st t.group).map (fun g => g.subject)

/-- Response body of a list endpoint over TestResults. -/
structure TestResultListResponse where
  data : List TestResult
  pagination : Pagination
  deriving Repr, DecidableEq

/-- GET /api/test-results (testResults.js lines 9–66): run
`find(query).sort({createdAt:-1}).skip(skip).limit(limit)` and
`countDocuments(query)`; then, when `subjectId` was given, filter the
fetched PAGE by the populated subject and overwrite `total` with the
length of that filtered page (`total = testResults.length`, line 49)
before building the pagination object. -/
def getTestResults (st : Store) (q : TestResultListQuery) :
    TestResultListResponse :=
  let skip := (q.page - 1) * q.limit
  let matching := st.testResults.filter (matchesTestResultQuery q)
  let pageSlice := ((sortDescBy TestResult.createdAt matching).drop skip).take q.limit
  let total := matching.length
  match q.subjectId with
  | some sid =>
    let filtered := pageSlice.filter (fun t => populatedSubject st t == some sid)
    { data := filtered, pagination := mkPagination q.page q.limit filtered.length }
  | none =>
    { data := pageSlice, pagination := mkPagination q.page q.limit total }

/-- Modelled from the spec (§4.4): the full post-join filtered count
that `totalItems` is required to equal — all stored TestResults matching
the group/published filter AND the subject-via-group join, independent
of the page slice.  Reference definition for comparison with
`getTestResults`. -/
def specFullFilteredCount (st : Store) (q : TestResultListQuery) : Nat :=
  (st.testResults.filter (fun t =>
    matchesTestResultQuery q t &&
    (match q.subjectId with
     | some sid => populatedSubject st t == some sid
     | none => true))).length

/-- A stored Graduate document (src/models/Graduate.js), the fields the
routes touch. -/
structure Graduate where
  id : Nat
  firstName : String
  lastName : String
  admissionType : String
  field : String
  university : String
  admissionYear : Nat
  previousGroup : Option Nat
  graduationYear : Option Nat
  finalScore : Option ℚ
  isPublished : Bool
  createdAt : Nat
  updatedAt : Nat
  deriving Repr, DecidableEq

/-- Schema default `isPublished: true` for Graduate
(Graduate.js lines 58–61). -/
def graduatePublishedDefault : Bool := true

/-- Graduate `pre('save')` hook (Graduate.js lines 72–75): only bumps
`updatedAt`. -/
def preSaveGraduate (g : Graduate) (now : Nat) : Graduate :=
  { g with updatedAt := now }

/-- PATCH /api/graduates/:id/publish (routes/graduates.js lines
264–289): flip `isPublished`, set `updatedAt`, `save()`. -/
def toggleGraduatePublish (g : Graduate) (now : Nat) : Graduate :=
  preSaveGraduate { g with isPublished := !g.isPublished, updatedAt := now } now

/-- The `updateData` object of PUT /api/graduates/:id (routes/graduates.js
lines 222–235) applied to the stored document by `findByIdAndUpdate`:
every listed field is overwritten; `isPublished !== undefined ?
isPublished === 'true' : true` (the body field is a multipart string). -/
def applyGraduateUpdate (g : Graduate) (firstName lastName admissionType
    fld university : String) (admissionYear : Nat)
    (previousGroup graduationYear : Option Nat) (finalScore : Option ℚ)
    (isPublished : Option String) (now : Nat) : Graduate :=
  { g with
    firstName := firstName
    lastName := lastName
    admissionType := admissionType
    field := fld
    university := university
    admissionYear := admissionYear
    previousGroup := previousGroup
    graduationYear := graduationYear
    finalScore := finalScore
    isPublished := match isPublished with
      | some s => s == "true"
      | none => true
    updatedAt := now }

/-- A stored Achievement document (schema in the second half of
src/models/TestResult.js's file, lines 100–167 of the combined source),
the fields the publish route touches. -/
structure Achievement where
  id : Nat
  studentName : String
  title : String
  isPublished : Bool
  createdAt : Nat
  updatedAt : Nat
  deriving Repr, DecidableEq

/-- Schema default `isPublished: true` for Achievement. -/
def achievementPublishedDefault : Bool := true

/-- Achievement `pre('save')` hook: only bumps `updatedAt`. -/
def preSaveAchievement (a : Achievement) (now : Nat) : Achievement :=
  { a with updatedAt := now }

/-- PATCH /api/achievements/:id/publish (routes/achievements.js lines
219–235): flip `isPublished`, set `updatedAt`, `save()`. -/
def toggleAchievementPublish (a : Achievement) (now : Nat) : Achievement :=
  preSaveAchievement { a with isPublished := !a.isPublished, updatedAt := now } now

/-- Parsed query string of GET /api/graduates (graduates.js line 52). -/
structure GraduateListQuery where
  published : Option Bool
  admissionType : Option String
  field : Option String
  page : Nat
  limit : Nat
  deriving Repr, DecidableEq

/-- Case-insensitive list containment used to model
`new RegExp(field, 'i')` applied to a plain (metacharacter-free)
search string. -/
def listHasInfix (needle : List Char) : List Char → Bool
  | [] => needle.isEmpty
  | c :: t => needle.isPrefixOf (c :: t) || listHasInfix needle t

/-- Case-insensitive substring test on strings. -/
def strContainsCI (hay needle : String) : Bool :=
  listHasInfix (needle.toList.map Char.toLower) (hay.toList.map Char.toLower)

/-- The mongo `query` object of GET /api/graduates (graduates.js lines
53–65): `isPublished` when `published` given, `admissionType` only when
it is one of `grant`/`contract`, and a case-insensitive `field` match. -/
def matchesGraduateQuery (q : GraduateListQuery) (g : Graduate) : Bool :=
  (match q.published with
   | some p => g.isPublished == p
   | none => true) &&
  (match q.admissionType with
   | some a => if a == "grant" || a == "contract" then g.admissionType == a else true
   | none => true) &&
  (match q.field with
   | some f => strContainsCI g.field f
   | none => true)

/-- Response body of GET /api/graduates. -/
structure GraduateListResponse where
  data : List Graduate
  pagination : Pagination
  deriving Repr, DecidableEq

/-- GET /api/graduates (graduates.js lines 50–100):
`find(query).sort({createdAt:-1}).skip(skip).limit(limit)` in parallel
with `countDocuments(query)`; `total` is the full filtered count, with
no post-join refiltering. -/
def getGraduates (st : List Graduate) (q : GraduateListQuery) :
    GraduateListResponse :=
  let skip := (q.page - 1) * q.limit
  let matching := st.filter (matchesGraduateQuery q)
  let pageSlice := ((sortDescBy Graduate.createdAt matching).drop skip).take q.limit
  { data := pageSlice, pagination := mkPagination q.page q.limit matching.length }

/-! ### Concrete fixtures used by witnesses and counterexamples -/

/-- Entry scoring 80 of 100, percentage omitted (spec §8 example). -/
def entry80 : ResultEntry := ⟨some 5, some 80, some 100, none⟩

/-- Entry scoring 45 of 50, percentage omitted (spec §8 example). -/
def entry45 : ResultEntry := ⟨some 6, some 45, some 50, none⟩

/-- Entry arriving with an explicitly supplied percentage of 0. -/
def entryPctZero : ResultEntry := ⟨some 5, some 50, some 100, some 0⟩

/-- Entry with a raw `maxScore` of 0, bypassing the schema minimum. -/
def entryMaxZero : ResultEntry := ⟨some 5, some 30, some 0, none⟩

/-- A group owned by subject 10. -/
def grpA : GroupDoc := ⟨1, 10⟩

/-- A group owned by subject 20. -/
def grpB : GroupDoc := ⟨2, 20⟩

/-- A stored TestResult whose derived fields are consistent with its
single 80-percent result. -/
def trStored : TestResult :=
  ⟨0, 1, "midterm", 3, [⟨some 5, some 80, some 100, some 80⟩], some 80, 1, true, 1, 1⟩

/-- Store with two groups, students 5 and 6, and `trStored`. -/
def stBase : Store := ⟨[grpA, grpB], [5, 6], [trStored]⟩

/-- A full-update body replacing the results with the two spec-example
entries. -/
def putBody : TestResultBody :=
  ⟨some 1, some "midterm", some 4, some [entry45, entry80], some true⟩

/-- The spec §8 example document: results 80/100 and 45/50. -/
def trSpecExample : TestResult := ⟨9, 1, "ex", 2, [entry80, entry45], none, 0, false, 2, 2⟩

/-- Document whose single entry supplies percentage 0. -/
def trPctZero : TestResult := ⟨7, 1, "quiz", 2, [entryPctZero], none, 0, false, 2, 2⟩

/-- Document whose single entry has `maxScore` 0. -/
def trMaxZero : TestResult := ⟨8, 1, "quiz2", 2, [entryMaxZero], none, 0, false, 2, 2⟩

/-- A published, empty-results TestResult in group 1 created at time `i`. -/
def trPub (i : Nat) : TestResult := ⟨i, 1, "t", 0, [], none, 0, true, i, 0⟩

/-- Store with two stored TestResults in group 1 (subject 10). -/
def stC2 : Store := ⟨[grpA, grpB], [], [trPub 1, trPub 2]⟩

/-- Query: subjectId 10, page 1, limit 1. -/
def qC2 : TestResultListQuery := ⟨none, some 10, none, 1, 1⟩

/-- Store with three stored TestResults in group 1 (subject 10). -/
def stC8 : Store := ⟨[grpA], [], [trPub 1, trPub 2, trPub 3]⟩

/-- Query: subjectId 10, page 1, limit 1. -/
def qC8 : TestResultListQuery := ⟨none, some 10, none, 1, 1⟩

/-- A graduate created at time `i`. -/
def gradW (i : Nat) : Graduate :=
  ⟨i, "a", "b", "grant", "cs", "u", 2020, none, none, none, true, i, 0⟩

/-- Twenty-five stored graduates, for the spec §8 pagination example. -/
def gListW : List Graduate := (List.range 25).map gradW

/-- Query: no filters, page 3, limit 10. -/
def qGradW : GraduateListQuery := ⟨none, none, none, 3, 10⟩

/-- Test-result list query with no filters at all, page 1, limit 10. -/
def qTRnone : TestResultListQuery := ⟨none, none, none, 1, 10⟩

/-- Entry arriving with a supplied nonzero percentage. -/
def entryPct37 : ResultEntry := ⟨some 5, some 80, some 100, some 37⟩

/-- The same full-update body as `putBody` but omitting `isPublished`. -/
def putBodyNoPub : TestResultBody :=
  ⟨some 1, some "midterm", some 4, some [entry45, entry80], none⟩

/-! ### Bridging and structural lemmas -/

/-- The executable `Rat.floor` agrees with Mathlib's `⌊⬝⌋`. -/
theorem ratFloor_eq_floor (q : ℚ) : Rat.floor q = ⌊q⌋ := by
  rw [Rat.floor_def, Rat.floor_def']

/-- `jsRound` is Mathlib's `round`, i.e. JS `Math.round` semantics. -/
theorem jsRound_eq_round (q : ℚ) : jsRound q = ((round q : ℤ) : ℚ) := by
  rw [jsRound, round_eq, ratFloor_eq_floor]

/-- `jsCeilDiv` is the ceiling of the rational quotient, i.e. JS
`Math.ceil(total / limit)`. -/
theorem jsCeilDiv_eq_ceil (total limit : Nat) :
    jsCeilDiv total limit = (⌈(total : ℚ) / (limit : ℚ)⌉).toNat := by
  rw [jsCeilDiv, ratFloor_eq_floor, Int.floor_neg, neg_neg]

/-- The normalizer never touches `score`. -/
theorem normalizeEntry_score (r : ResultEntry) :
    (normalizeEntry r).score = r.score := by
  unfold normalizeEntry; split <;> rfl

/-- The normalizer never touches `maxScore`. -/
theorem normalizeEntry_maxScore (r : ResultEntry) :
    (normalizeEntry r).maxScore = r.maxScore := by
  unfold normalizeEntry; split <;> rfl

/-- A falsy (absent or zero) `maxScore` makes the normalizer skip the
entry entirely: the guarded division is never reached. -/
theorem normalizeEntry_of_falsy_maxScore (r : ResultEntry)
    (h : jsFalsy r.maxScore = true) : normalizeEntry r = r := by
  unfold normalizeEntry
  simp [h]

/-- With a defined score, the reducer contribution is a genuine number
(no NaN): either the supplied truthy percentage or the recomputation
over the defaulted divisor. -/
theorem entryContribution_isSome (r : ResultEntry)
    (hs : r.score.isSome = true) : (entryContribution r).isSome = true := by
  unfold entryContribution
  split
  · next h =>
    cases hq : r.percentage with
    | none => rw [hq] at h; simp [jsFalsy] at h
    | some p => simp
  · simp [Option.isSome_map', hs]

/-- The pre-save hook maps the normalizer over the results (both the
empty and the nonempty branch). -/
theorem preSaveTestResult_results (t : TestResult) (now : Nat) :
    (preSaveTestResult t now).results = t.results.map normalizeEntry := by
  by_cases h : t.results.length > 0
  · simp [preSaveTestResult, h]
  · have : t.results = [] := by
      cases hr : t.results with
      | nil => rfl
      | cons a l => rw [hr] at h; simp at h
    simp [preSaveTestResult, this]

/-- The pre-save hook never touches `isPublished`. -/
theorem preSaveTestResult_isPublished (t : TestResult) (now : Nat) :
    (preSaveTestResult t now).isPublished = t.isPublished := by
  by_cases h : t.results.length > 0 <;> simp [preSaveTestResult, h]

/-- The pre-save hook stamps `updatedAt` with the save time. -/
theorem preSaveTestResult_updatedAt (t : TestResult) (now : Nat) :
    (preSaveTestResult t now).updatedAt = now := by
  by_cases h : t.results.length > 0 <;> simp [preSaveTestResult, h]

/-- Inserting increases length by one. -/
theorem insertDescBy_length {α : Type} (key : α → Nat) (x : α) (l : List α) :
    (insertDescBy key x l).length = l.length + 1 := by
  induction l with
  | nil => rfl
  | cons y ys ih =>
    unfold insertDescBy
    split
    · rfl
    · simp [ih]

/-- Sorting preserves length. -/
theorem sortDescBy_length {α : Type} (key : α → Nat) (l : List α) :
    (sortDescBy key l).length = l.length := by
  induction l with
  | nil => rfl
  | cons y ys ih =>
    show (insertDescBy key y (sortDescBy key ys)).length = ys.length + 1
    rw [insertDescBy_length, ih]

/-- Core aggregation fact: with a defined score and a present
`maxScore ≥ 1`, the normalized entry carries a percentage and the
reducer contributes exactly that stored percentage — the fallback
recomputation, when taken (percentage 0), reproduces the same value. -/
theorem entryContribution_normalizeEntry (r : ResultEntry)
    (hs : r.score.isSome = true) (hms : r.maxScore.isSome = true)
    (hm1 : (1 : ℚ) ≤ r.maxScore.getD 0) :
    (normalizeEntry r).percentage.isSome = true ∧
    entryContribution (normalizeEntry r) =
      some ((normalizeEntry r).percentage.getD 0) := by
  obtain ⟨stu, sc, ms, pc⟩ := r
  obtain ⟨s, rfl⟩ := Option.isSome_iff_exists.mp hs
  obtain ⟨m, rfl⟩ := Option.isSome_iff_exists.mp hms
  simp only [Option.getD_some] at hm1
  have hm0 : m ≠ 0 := by intro h; rw [h] at hm1; norm_num at hm1
  cases pc with
  | none =>
    by_cases hp0 : jsRound (s / m * 100) = 0 <;>
      simp [normalizeEntry, entryContribution, jsFalsy, hm0, hp0]
  | some q =>
    by_cases hq0 : q = 0
    · subst hq0
      by_cases hp0 : jsRound (s / m * 100) = 0 <;>
        simp [normalizeEntry, entryContribution, jsFalsy, hm0, hp0]
    · simp [normalizeEntry, entryContribution, jsFalsy, hm0, hq0]

/-- When every contribution is the stored percentage, the reduce yields
their sum. -/
theorem sumContributions_eq_sum (l : List ResultEntry)
    (h : ∀ r ∈ l, entryContribution r = some (r.percentage.getD 0)) :
    sumContributions l = some ((l.map (fun r => r.percentage.getD 0)).sum) := by
  induction l with
  | nil => rfl
  | cons r rs ih =>
    have hr := h r (by simp)
    have ih' := ih (fun x hx => h x (by simp [hx]))
    simp [sumContributions, hr, ih']

/-- When every contribution is a number, the reduce yields a number. -/
theorem sumContributions_isSome (l : List ResultEntry)
    (h : ∀ r ∈ l, (entryContribution r).isSome = true) :
    (sumContributions l).isSome = true := by
  induction l with
  | nil => rfl
  | cons r rs ih =>
    have hr := h r (by simp)
    have ih' := ih (fun x hx => h x (by simp [hx]))
    obtain ⟨a, ha⟩ := Option.isSome_iff_exists.mp hr
    obtain ⟨b, hb⟩ := Option.isSome_iff_exists.mp ih'
    simp [sumContributions, ha, hb]

/-- The validation loop walks past a prefix of entries that pass both
checks. -/
theorem validateResults_append_ok (st : Store) (pre rest : List ResultEntry)
    (hpre : ∀ x ∈ pre,
      entryInvalid x = false ∧ studentExists st (x.student.getD 0) = true) :
    validateResults st (pre ++ rest) = validateResults st rest := by
  induction pre with
  | nil => rfl
  | cons x xs ih =>
    have hx := hpre x (by simp)
    have ih' := ih (fun y hy => hpre y (by simp [hy]))
    simp [validateResults, hx.1, hx.2, ih']

/-- A list on which the loop reports no error consists solely of valid
entries whose students exist (completeness of the loop). -/
theorem validateResults_none_iff (st : Store) (l : List ResultEntry) :
    validateResults st l = none ↔
      ∀ r ∈ l, entryInvalid r = false ∧ studentExists st (r.student.getD 0) = true := by
  induction l with
  | nil => simp [validateResults]
  | cons r rs ih =>
    constructor
    · intro h
      by_cases h1 : entryInvalid r
      · simp [validateResults, h1] at h
      · by_cases h2 : studentExists st (r.student.getD 0)
        · rw [validateResults, if_neg (by simp [h1]), if_neg (by simp [h2])] at h
          intro x hx
          rcases List.mem_cons.mp hx with hx | hx
          · subst hx
            exact ⟨by simp [h1], by simp [h2]⟩
          · exact (ih.mp h) x hx
        · rw [validateResults, if_neg (by simp [h1])] at h
          simp [h2] at h
    · intro h
      have hr := h r (by simp)
      rw [validateResults, if_neg (by simp [hr.1]), if_neg (by simp [hr.2])]
      exact ih.mpr (fun x hx => h x (by simp [hx]))

/-- Value lemma: `Math.round(45 / 50 * 100) = 90`. -/
theorem jsRound_45_50 : jsRound (45 / 50 * 100) = 90 := by
  rw [jsRound, ratFloor_eq_floor]; norm_num

/-- Value lemma: `Math.round(80 / 100 * 100) = 80`. -/
theorem jsRound_80_100 : jsRound (80 / 100 * 100) = 80 := by
  rw [jsRound, ratFloor_eq_floor]; norm_num

/-- Value lemma: `Math.round(50 / 100 * 100) = 50`. -/
theorem jsRound_50_100 : jsRound (50 / 100 * 100) = 50 := by
  rw [jsRound, ratFloor_eq_floor]; norm_num

/-- Evaluation of the PUT handler on `stBase` for any `isPublished`
body value: id 0 resolves to `trStored`, the group and both students
exist, so `findByIdAndUpdate` stores exactly the patch applied to
`trStored`. -/
theorem updateTestResult_stBase_eval (pub : Option Bool) :
    updateTestResult stBase 0
      ⟨some 1, some "midterm", some 4, some [entry45, entry80], pub⟩ 9 =
    ({ stBase with testResults :=
        [applyTestResultUpdate trStored 1 "midterm" 4 [entry45, entry80] pub 9] },
      Except.ok (applyTestResultUpdate trStored 1 "midterm" 4 [entry45, entry80] pub 9)) := by
  norm_num [updateTestResult, stBase, findGroupById, grpA, grpB, validateResults,
    entryInvalid, studentExists, entry45, entry80, trStored]

/-- Inversion of a successful PUT: the body fields were all present, the
target document was found, and the stored document is exactly the patch
applied to it — in particular `averageScore` and `totalStudents` are
carried over unchanged from the previous stored document. -/
theorem updateTestResult_ok_shape (st : Store) (tid : Nat) (b : TestResultBody)
    (now : Nat) (st' : Store) (u : TestResult)
    (h : updateTestResult st tid b now = (st', Except.ok u)) :
    ∃ t, st.testResults.find? (fun x => x.id == tid) = some t ∧
      u.isPublished = b.isPublished.getD false ∧
      u.averageScore = t.averageScore ∧
      u.totalStudents = t.totalStudents ∧
      (∀ rs, b.results = some rs → u.results = rs.map applyEntryDefaults) := by
  rcases b with ⟨g0, n0, d0, rs0, p0⟩
  cases g0 with
  | none => exact absurd h (by simp [updateTestResult])
  | some g =>
  cases n0 with
  | none => exact absurd h (by simp [updateTestResult])
  | some name =>
  cases d0 with
  | none => exact absurd h (by simp [updateTestResult])
  | some date =>
  cases rs0 with
  | none => exact absurd h (by simp [updateTestResult])
  | some rs =>
  by_cases hg : (findGroupById st g).isNone
  · exact absurd h (by simp [updateTestResult, hg])
  · cases hv : validateResults st rs with
    | some e => exact absurd h (by simp [updateTestResult, hg, hv])
    | none =>
      cases hf : st.testResults.find? (fun x => x.id == tid) with
      | none => exact absurd h (by simp [updateTestResult, hg, hv, hf])
      | some t =>
        have hu : u = applyTestResultUpdate t g name date rs p0 now := by
          have := h
          simp [updateTestResult, hg, hv, hf] at this
          exact this.2.symm
        refine ⟨t, rfl, ?_, ?_, ?_, ?_⟩
        · rw [hu]; rfl
        · rw [hu]; rfl
        · rw [hu]; rfl
        · intro rs2 hrs2
          cases hrs2
          rw [hu]; rfl

/-- C7: one invocation of the publish-toggle handler flips `isPublished`
and stamps `updatedAt` with the save time, and two successive
invocations restore the original `isPublished` — for TestResult,
Graduate and Achievement alike (the toggle composed with itself is the
identity on `isPublished`). -/
theorem C7_publish_toggle (t : TestResult) (g : Graduate) (a : Achievement)
    (n1 n2 : Nat) :
    (toggleTestResultPublish t n1).isPublished = !t.isPublished ∧
    (toggleTestResultPublish t n1).updatedAt = n1 ∧
    (toggleTestResultPublish (toggleTestResultPublish t n1) n2).isPublished
      = t.isPublished ∧
    (toggleGraduatePublish g n1).isPublished = !g.isPublished ∧
    (toggleGraduatePublish g n1).updatedAt = n1 ∧
    (toggleGraduatePublish (toggleGraduatePublish g n1) n2).isPublished
      = g.isPublished ∧
    (toggleAchievementPublish a n1).isPublished = !a.isPublished ∧
    (toggleAchievementPublish a n1).updatedAt = n1 ∧
    (toggleAchievementPublish (toggleAchievementPublish a n1) n2).isPublished
      = a.isPublished := by
  refine ⟨?_, ?_, ?_, ?_, ?_, ?_, ?_, ?_, ?_⟩ <;>
    simp [toggleTestResultPublish, toggleGraduatePublish,
      toggleAchievementPublish, preSaveTestResult_isPublished,
      preSaveTestResult_updatedAt, preSaveGraduate, preSaveAchievement]

/-- C10: a full update (PUT) whose body omits `isPublished` always
stores the entity's creation default — `false` for TestResult (the
handler's `isPublished !== undefined ? isPublished : false`), `true`
for Graduate (`isPublished !== undefined ? isPublished === 'true' :
true`) — regardless of the previously stored flag; a published
TestResult becomes unpublished and an unpublished Graduate becomes
published. -/
theorem C10_put_resets_isPublished :
    (∀ (t : TestResult) (g : Nat) (name : String) (date : Nat)
        (rs : List ResultEntry) (now : Nat),
      (applyTestResultUpdate t g name date rs none now).isPublished =
        testResultPublishedDefault) ∧
    (∀ (g0 : Graduate) (fn ln adm fld uni : String) (ay : Nat)
        (pg gy : Option Nat) (fs : Option ℚ) (now : Nat),
      (applyGraduateUpdate g0 fn ln adm fld uni ay pg gy fs none now).isPublished =
        graduatePublishedDefault) ∧
    testResultPublishedDefault = false ∧
    graduatePublishedDefault = true ∧
    (∀ (st : Store) (tid : Nat) (b : TestResultBody) (now : Nat)
        (st' : Store) (u : TestResult),
      b.isPublished = none →
      updateTestResult st tid b now = (st', Except.ok u) →
      u.isPublished = false) := by
  refine ⟨fun t g name date rs now => rfl,
    fun g0 fn ln adm fld uni ay pg gy fs now => rfl, rfl, rfl, ?_⟩
  intro st tid b now st' u hpub h
  obtain ⟨t, _, hu, _⟩ := updateTestResult_ok_shape st tid b now st' u h
  rw [hu, hpub]
  rfl

/-- C10 witness: updating the published `trStored` with a body that
omits `isPublished` stores `isPublished = false`. -/
theorem C10_put_resets_isPublished_witness :
    putBodyNoPub.isPublished = none ∧
    trStored.isPublished = true ∧
    (applyTestResultUpdate trStored 1 "midterm" 4 [entry45, entry80] none 9).isPublished
      = testResultPublishedDefault ∧
    (applyTestResultUpdate trStored 1 "midterm" 4 [entry45, entry80] none 9).isPublished
      = false :=
  ⟨rfl, rfl,
    C10_put_resets_isPublished.1 trStored 1 "midterm" 4 [entry45, entry80] 9,
    C10_put_resets_isPublished.2.2.2.2 stBase 0 putBodyNoPub 9
      { stBase with testResults :=
          [applyTestResultUpdate trStored 1 "midterm" 4 [entry45, entry80] none 9] }
      (applyTestResultUpdate trStored 1 "midterm" 4 [entry45, entry80] none 9)
      rfl (updateTestResult_stBase_eval none)⟩

/-- C3 counterexample: an entry arriving with the supplied percentage 0
(score 50 of 100) is NOT left unchanged by the pre-save normalization —
`!result.percentage` treats the 0 as absent and overwrites it with the
recomputed 50, both at the entry level and through the whole hook. -/
theorem C3_counterexample :
    entryPctZero.percentage = some 0 ∧
    (normalizeEntry entryPctZero).percentage = some 50 ∧
    (preSaveTestResult trPctZero 3).results.map (fun r => r.percentage)
      = [some 50] := by
  refine ⟨rfl, ?_, ?_⟩
  · norm_num [normalizeEntry, entryPctZero, jsFalsy, jsRound, ratFloor_eq_floor]
  · rw [preSaveTestResult_results]
    have h : trPctZero.results = [entryPctZero] := rfl
    rw [h]
    norm_num [normalizeEntry, entryPctZero, jsFalsy, jsRound, ratFloor_eq_floor]

/-- C3 (amended): the pre-save normalization leaves an entry's supplied
percentage unchanged whenever that percentage is nonzero; a supplied
percentage of 0 is falsy in JS and is therefore recomputed (see the
counterexample).  The reducer likewise uses the supplied nonzero value
as-is. -/
theorem C3_supplied_nonzero_percentage_kept (r : ResultEntry) (p : ℚ)
    (hp : r.percentage = some p) (hne : p ≠ 0) :
    normalizeEntry r = r ∧
    (normalizeEntry r).percentage = some p ∧
    entryContribution r = some p := by
  have hf : jsFalsy r.percentage = false := by simp [jsFalsy, hp, hne]
  have h1 : normalizeEntry r = r := by
    unfold normalizeEntry
    simp [hf]
  refine ⟨h1, by rw [h1, hp], ?_⟩
  unfold entryContribution
  rw [hf]
  simp [hp]

/-- C3 witness: a supplied percentage of 37 survives normalization. -/
theorem C3_supplied_nonzero_percentage_kept_witness :
    entryPct37.percentage = some 37 ∧ normalizeEntry entryPct37 = entryPct37 :=
  ⟨rfl, (C3_supplied_nonzero_percentage_kept entryPct37 37 rfl
    (by norm_num)).1⟩

/-- Inversion of a successful POST: the stored document's results are
exactly the body's entries with subdocument defaults applied and then
normalized by the pre-save hook. -/
theorem createTestResult_ok_results (st : Store) (b : TestResultBody)
    (now newId : Nat) (st' : Store) (saved : TestResult) (rs : List ResultEntry)
    (hrs : b.results = some rs)
    (h : createTestResult st b now newId = (st', Except.ok saved)) :
    saved.results = rs.map (fun x => normalizeEntry (applyEntryDefaults x)) := by
  rcases b with ⟨g0, n0, d0, rs0, p0⟩
  cases hrs
  cases g0 with
  | none => exact absurd h (by simp [createTestResult])
  | some g =>
  cases n0 with
  | none => exact absurd h (by simp [createTestResult])
  | some name =>
  cases d0 with
  | none => exact absurd h (by simp [createTestResult])
  | some date =>
  by_cases hg : (findGroupById st g).isNone
  · exact absurd h (by simp [createTestResult, hg])
  · cases hv : validateResults st rs with
    | some e => exact absurd h (by simp [createTestResult, hg, hv])
    | none =>
      have hs : saved = preSaveTestResult
          { id := newId, group := g, testName := name, testDate := date,
            results := rs.map applyEntryDefaults, averageScore := none,
            totalStudents := 0, isPublished := p0.getD false,
            createdAt := now, updatedAt := now } now := by
        have h2 := h
        simp [createTestResult, hg, hv] at h2
        exact h2.2.symm
      rw [hs, preSaveTestResult_results]
      simp [List.map_map, Function.comp]

/-- C4: an entry lacking a percentage, with a defined score and a
`maxScore` that is either at least 1 or absent (defaulting to 100), is
persisted with `percentage = Math.round(score / (maxScore || 100) * 100)`;
and the create handler stores exactly the normalizer's output (defaults
then normalization) for every entry. -/
theorem C4_percentage_formula :
    (∀ (r : ResultEntry) (s : ℚ),
      r.percentage = none → r.score = some s →
      (r.maxScore = none ∨ ∃ m, r.maxScore = some m ∧ (1 : ℚ) ≤ m) →
      (normalizeEntry (applyEntryDefaults r)).percentage =
        some (jsRound (s / r.maxScore.getD 100 * 100))) ∧
    (∀ (st : Store) (b : TestResultBody) (now newId : Nat) (st' : Store)
        (saved : TestResult) (rs : List ResultEntry),
      b.results = some rs →
      createTestResult st b now newId = (st', Except.ok saved) →
      saved.results = rs.map (fun x => normalizeEntry (applyEntryDefaults x))) := by
  constructor
  · intro r s hp hs hm
    obtain ⟨stu, sc, ms, pc⟩ := r
    cases hp
    cases hs
    rcases hm with hm | ⟨m, hm, hm1⟩
    · cases hm
      norm_num [applyEntryDefaults, normalizeEntry, jsFalsy]
    · cases hm
      have hm0 : m ≠ 0 := by intro h0; rw [h0] at hm1; norm_num at hm1
      simp [applyEntryDefaults, normalizeEntry, jsFalsy, hm0]
  · exact fun st b now newId st' saved rs hrs h =>
      createTestResult_ok_results st b now newId st' saved rs hrs h

/-- C4 witness: the spec example entry 45-of-50 is persisted with
percentage round(45/50*100) = 90. -/
theorem C4_percentage_formula_witness :
    entry45.percentage = none ∧ entry45.score = some 45 ∧
    (normalizeEntry (applyEntryDefaults entry45)).percentage =
      some (jsRound (45 / entry45.maxScore.getD 100 * 100)) ∧
    jsRound (45 / entry45.maxScore.getD 100 * 100) = 90 :=
  ⟨rfl, rfl,
    C4_percentage_formula.1 entry45 45 rfl rfl (Or.inr ⟨50, rfl, by norm_num⟩),
    by norm_num [entry45, jsRound, ratFloor_eq_floor]⟩

/-- C5: for every document going through the save hook whose entries all
carry a defined score and a present `maxScore ≥ 1` (what the schema's
`required`/`min` validation admits), the stored `averageScore` is the
arithmetic mean of the stored per-entry percentages (each used once, the
fallback recomputation never producing a different value) and
`totalStudents` is the number of entries; an empty results list yields
`averageScore = 0` and `totalStudents = 0`. -/
theorem C5_average_is_mean (t : TestResult) (now : Nat)
    (h : ∀ r ∈ t.results, r.score.isSome = true ∧ r.maxScore.isSome = true ∧
      (1 : ℚ) ≤ r.maxScore.getD 0) :
    (∀ r ∈ (preSaveTestResult t now).results, r.percentage.isSome = true) ∧
    (preSaveTestResult t now).averageScore =
      some (((preSaveTestResult t now).results.map
          (fun r => r.percentage.getD 0)).sum /
        ((preSaveTestResult t now).results.length : ℚ)) ∧
    (preSaveTestResult t now).totalStudents = (t.results.length : ℚ) ∧
    (t.results = [] →
      (preSaveTestResult t now).averageScore = some 0 ∧
      (preSaveTestResult t now).totalStudents = 0) := by
  have hmap : ∀ r ∈ t.results.map normalizeEntry,
      r.percentage.isSome = true ∧
      entryContribution r = some (r.percentage.getD 0) := by
    intro r hr
    obtain ⟨x, hx, rfl⟩ := List.mem_map.mp hr
    obtain ⟨h1, h2, h3⟩ := h x hx
    exact entryContribution_normalizeEntry x h1 h2 h3
  refine ⟨?_, ?_, ?_, ?_⟩
  · rw [preSaveTestResult_results]
    exact fun r hr => (hmap r hr).1
  · cases hres : t.results with
    | nil => simp [preSaveTestResult, hres]
    | cons a l =>
      have hlen : t.results.length > 0 := by rw [hres]; simp
      have hsum := sumContributions_eq_sum (t.results.map normalizeEntry)
        (fun r hr => (hmap r hr).2)
      simp only [preSaveTestResult, hlen, if_pos, gt_iff_lt] at *
      simp [hsum]
  · cases hres : t.results with
    | nil => simp [preSaveTestResult, hres]
    | cons a l =>
      have hlen : t.results.length > 0 := by rw [hres]; simp
      simp [preSaveTestResult, hlen, hres]
  · intro hres
    simp [preSaveTestResult, hres]

/-- C5 witness: the spec §8 example — results 80-of-100 and 45-of-50
give stored percentages 80 and 90, averageScore 85 and totalStudents 2. -/
theorem C5_average_is_mean_witness :
    (∀ r ∈ trSpecExample.results, r.score.isSome = true ∧
      r.maxScore.isSome = true ∧ (1 : ℚ) ≤ r.maxScore.getD 0) ∧
    (preSaveTestResult trSpecExample 7).averageScore =
      some (((preSaveTestResult trSpecExample 7).results.map
          (fun r => r.percentage.getD 0)).sum /
        ((preSaveTestResult trSpecExample 7).results.length : ℚ)) ∧
    (preSaveTestResult trSpecExample 7).averageScore = some 85 := by
  have hh : ∀ r ∈ trSpecExample.results, r.score.isSome = true ∧
      r.maxScore.isSome = true ∧ (1 : ℚ) ≤ r.maxScore.getD 0 := by
    have he : trSpecExample.results = [entry80, entry45] := rfl
    rw [he]
    intro r hr
    rcases List.mem_cons.mp hr with h1 | h1
    · subst h1; exact ⟨rfl, rfl, by norm_num [entry80]⟩
    · rcases List.mem_cons.mp h1 with h2 | h2
      · subst h2; exact ⟨rfl, rfl, by norm_num [entry45]⟩
      · simp at h2
  refine ⟨hh, (C5_average_is_mean trSpecExample 7 hh).2.1, ?_⟩
  rw [(C5_average_is_mean trSpecExample 7 hh).2.1]
  have h2 : (preSaveTestResult trSpecExample 7).results =
      [normalizeEntry entry80, normalizeEntry entry45] := by
    rw [preSaveTestResult_results]; rfl
  rw [h2]
  norm_num [normalizeEntry, entry80, entry45, jsFalsy, jsRound, ratFloor_eq_floor]

/-- C9: the normalizer is free of division by zero.  For an entry whose
raw `maxScore` is 0 or absent, the hook's `forEach` skips the
assignment entirely (its guard requires a truthy `maxScore`), and the
reducer substitutes 100 via `maxScore || 100`; with defined scores every
contribution, and hence `averageScore`, is a well-defined number. -/
theorem C9_no_division_by_zero :
    (∀ r : ResultEntry, (r.maxScore = none ∨ r.maxScore = some 0) →
      normalizeEntry r = r ∧
      entryContribution r = (if jsFalsy r.percentage = true then
        r.score.map (fun s => jsRound (s / 100 * 100)) else r.percentage)) ∧
    (∀ r : ResultEntry, r.score.isSome = true →
      (entryContribution r).isSome = true) ∧
    (∀ (t : TestResult) (now : Nat),
      (∀ r ∈ t.results, r.score.isSome = true) →
      (preSaveTestResult t now).averageScore.isSome = true) := by
  refine ⟨?_, entryContribution_isSome, ?_⟩
  · intro r hm
    have hf : jsFalsy r.maxScore = true := by
      rcases hm with hm | hm <;> simp [jsFalsy, hm]
    refine ⟨normalizeEntry_of_falsy_maxScore r hf, ?_⟩
    unfold entryContribution
    rw [hf]
    by_cases hp : jsFalsy r.percentage = true
    · simp [hp]
    · simp [hp]
  · intro t now h
    cases hres : t.results with
    | nil => simp [preSaveTestResult, hres]
    | cons a l =>
      have hlen : t.results.length > 0 := by rw [hres]; simp
      have hsum : (sumContributions (t.results.map normalizeEntry)).isSome = true := by
        apply sumContributions_isSome
        intro r hr
        obtain ⟨x, hx, rfl⟩ := List.mem_map.mp hr
        apply entryContribution_isSome
        rw [normalizeEntry_score]
        exact h x hx
      simpa [preSaveTestResult, hlen, Option.isSome_map] using hsum

/-- C9 witness: a raw entry with `maxScore = 0` is left untouched by the
normalizer and the document's averageScore is still a number. -/
theorem C9_no_division_by_zero_witness :
    entryMaxZero.maxScore = some 0 ∧
    normalizeEntry entryMaxZero = entryMaxZero ∧
    (preSaveTestResult trMaxZero 4).averageScore.isSome = true :=
  ⟨rfl, (C9_no_division_by_zero.1 entryMaxZero (Or.inr rfl)).1,
   C9_no_division_by_zero.2.2 trMaxZero 4 (by
     intro r hr
     have he : trMaxZero.results = [entryMaxZero] := rfl
     rw [he] at hr
     rcases List.mem_cons.mp hr with h1 | h1
     · subst h1; rfl
     · simp at h1)⟩

/-- C6: the create handler's failure modes.  With all required fields
present: a missing group yields the groupNotFound error; a first
offending entry with missing student or missing/negative score yields
the validation error; a first entry whose student id is unknown yields
an error naming exactly that id.  In every error case the returned
store is the input store — the insert sits after the whole loop, so no
partial result list is ever persisted. -/
theorem C6_create_validation :
    (∀ (st : Store) (b : TestResultBody) (now newId g : Nat)
        (name : String) (date : Nat) (rs : List ResultEntry),
      b.group = some g → b.testName = some name → b.testDate = some date →
      b.results = some rs → findGroupById st g = none →
      createTestResult st b now newId = (st, .error .groupNotFound)) ∧
    (∀ (st : Store) (b : TestResultBody) (now newId g : Nat)
        (name : String) (date : Nat) (pre : List ResultEntry)
        (r : ResultEntry) (post : List ResultEntry),
      b.group = some g → b.testName = some name → b.testDate = some date →
      b.results = some (pre ++ r :: post) →
      (findGroupById st g).isSome = true →
      (∀ x ∈ pre, entryInvalid x = false ∧
        studentExists st (x.student.getD 0) = true) →
      entryInvalid r = true →
      createTestResult st b now newId = (st, .error .invalidResult)) ∧
    (∀ (st : Store) (b : TestResultBody) (now newId g : Nat)
        (name : String) (date : Nat) (pre : List ResultEntry)
        (r : ResultEntry) (post : List ResultEntry) (sid : Nat),
      b.group = some g → b.testName = some name → b.testDate = some date →
      b.results = some (pre ++ r :: post) →
      (findGroupById st g).isSome = true →
      (∀ x ∈ pre, entryInvalid x = false ∧
        studentExists st (x.student.getD 0) = true) →
      entryInvalid r = false → r.student = some sid →
      studentExists st sid = false →
      createTestResult st b now newId = (st, .error (.studentNotFound sid)) ∧
      errorMessage (.studentNotFound sid) =
        "Student with ID " ++ toString sid ++ " not found") ∧
    (∀ (st : Store) (b : TestResultBody) (now newId : Nat) (e : ApiError),
      (createTestResult st b now newId).2 = .error e →
      (createTestResult st b now newId).1 = st) := by
  refine ⟨?_, ?_, ?_, ?_⟩
  · intro st b now newId g name date rs hg hn hd hr hfind
    rcases b with ⟨g0, n0, d0, rs0, p0⟩
    cases hg; cases hn; cases hd; cases hr
    simp [createTestResult, hfind]
  · intro st b now newId g name date pre r post hg hn hd hr hgs hpre hbad
    rcases b with ⟨g0, n0, d0, rs0, p0⟩
    cases hg; cases hn; cases hd; cases hr
    obtain ⟨gg, hgg⟩ := Option.isSome_iff_exists.mp hgs
    have hv : validateResults st (pre ++ r :: post) =
        some ApiError.invalidResult := by
      rw [validateResults_append_ok st pre _ hpre]
      simp [validateResults, hbad]
    simp [createTestResult, hgg, hv]
  · intro st b now newId g name date pre r post sid hg hn hd hr hgs hpre hok hstu hmiss
    rcases b with ⟨g0, n0, d0, s0, p0⟩
    cases hg; cases hn; cases hd; cases hr
    obtain ⟨gg, hgg⟩ := Option.isSome_iff_exists.mp hgs
    have hv : validateResults st (pre ++ r :: post) =
        some (ApiError.studentNotFound sid) := by
      rw [validateResults_append_ok st pre _ hpre]
      simp [validateResults, hok, hstu, hmiss]
    exact ⟨by simp [createTestResult, hgg, hv], rfl⟩
  · intro st b now newId e h
    rcases b with ⟨g0, n0, d0, rs0, p0⟩
    cases g0 with
    | none => rfl
    | some g =>
    cases n0 with
    | none => rfl
    | some name =>
    cases d0 with
    | none => rfl
    | some date =>
    cases rs0 with
    | none => rfl
    | some rs =>
    by_cases hgn : (findGroupById st g).isNone
    · simp [createTestResult, hgn]
    · cases hv : validateResults st rs with
      | some e2 => simp [createTestResult, hgn, hv]
      | none =>
        exfalso
        simp [createTestResult, hgn, hv] at h

/-- C6 witness: creating with an unknown group id 99 fails with
groupNotFound and an unchanged store; creating with a results entry
whose student id 42 does not exist fails naming 42, also with the store
unchanged. -/
theorem C6_create_validation_witness :
    findGroupById stBase 99 = none ∧
    createTestResult stBase ⟨some 99, some "t", some 1, some [entry80], none⟩ 5 7 =
      (stBase, Except.error ApiError.groupNotFound) ∧
    studentExists stBase 42 = false ∧
    createTestResult stBase
        ⟨some 1, some "t", some 1, some [⟨some 42, some 10, some 100, none⟩], none⟩ 5 7 =
      (stBase, Except.error (ApiError.studentNotFound 42)) ∧
    errorMessage (ApiError.studentNotFound 42) = "Student with ID 42 not found" := by
  refine ⟨rfl, ?_, rfl, ?_, rfl⟩
  · exact C6_create_validation.1 stBase
      ⟨some 99, some "t", some 1, some [entry80], none⟩ 5 7 99 "t" 1 [entry80]
      rfl rfl rfl rfl rfl
  · exact (C6_create_validation.2.2.1 stBase
      ⟨some 1, some "t", some 1, some [⟨some 42, some 10, some 100, none⟩], none⟩
      5 7 1 "t" 1 [] ⟨some 42, some 10, some 100, none⟩ [] 42
      rfl rfl rfl rfl rfl (by intro x hx; simp at hx)
      (by simp [entryInvalid]) rfl rfl).1

/-- C1 (behavior at the failing input): `findByIdAndUpdate` does not
run the pre-save hook, so a PUT replacing the results of `trStored`
(one 80-percent entry, stored average 80) with the two spec-example
entries stores a document whose `averageScore` is still 80 and
`totalStudents` still 1, while the recomputation the claim demands —
what the save hook produces from the new results — gives 85 and 2. -/
theorem C1_put_keeps_stale_derived_fields :
    updateTestResult stBase 0 putBody 9 =
      ({ stBase with testResults :=
          [applyTestResultUpdate trStored 1 "midterm" 4 [entry45, entry80] (some true) 9] },
        Except.ok (applyTestResultUpdate trStored 1 "midterm" 4
          [entry45, entry80] (some true) 9)) ∧
    (applyTestResultUpdate trStored 1 "midterm" 4 [entry45, entry80]
      (some true) 9).averageScore = some 80 ∧
    (applyTestResultUpdate trStored 1 "midterm" 4 [entry45, entry80]
      (some true) 9).totalStudents = 1 ∧
    (preSaveTestResult (applyTestResultUpdate trStored 1 "midterm" 4
      [entry45, entry80] (some true) 9) 9).averageScore = some 85 ∧
    (preSaveTestResult (applyTestResultUpdate trStored 1 "midterm" 4
      [entry45, entry80] (some true) 9) 9).totalStudents = 2 := by
  refine ⟨updateTestResult_stBase_eval (some true), rfl, rfl, ?_, ?_⟩
  · norm_num [preSaveTestResult, applyTestResultUpdate, applyEntryDefaults,
      normalizeEntry, entry45, entry80, jsFalsy, sumContributions,
      entryContribution, jsRound, ratFloor_eq_floor, trStored]
  · norm_num [preSaveTestResult, applyTestResultUpdate, applyEntryDefaults,
      entry45, entry80, trStored]

/-- C2 (behavior at the failing input): on a store holding two published
test results in a group of subject 10, the query subjectId=10, page=1,
limit=1 makes the handler fetch a one-element page, filter it by
subject, and reassign `total = testResults.length`: the response reports
totalItems = 1 — the page's data length — while the full post-join
filtered count is 2. -/
theorem C2_totalItems_from_page_slice :
    (getTestResults stC2 qC2).pagination.totalItems = 1 ∧
    (getTestResults stC2 qC2).data.length = 1 ∧
    (getTestResults stC2 qC2).pagination.totalItems =
      (getTestResults stC2 qC2).data.length ∧
    specFullFilteredCount stC2 qC2 = 2 ∧
    (getTestResults stC2 qC2).pagination.totalItems ≠
      specFullFilteredCount stC2 qC2 := by
  refine ⟨by decide, by decide, by decide, by decide, by decide⟩

/-- C8 counterexample: a test-result list query carrying a subjectId
filter violates the claimed contract — on a store with three matching
documents and limit 1, the returned totalItems is 1 (the post-filter
page length), not the full filtered count 3. -/
theorem C8_counterexample :
    (getTestResults stC8 qC8).pagination.totalItems = 1 ∧
    specFullFilteredCount stC8 qC8 = 3 ∧
    (getTestResults stC8 qC8).pagination.totalItems ≠
      specFullFilteredCount stC8 qC8 := by
  refine ⟨by decide, by decide, by decide⟩

/-- C8 (amended): for the graduates list endpoint, and for the
test-results list endpoint when no subjectId filter is given, the
response satisfies the full pagination contract — currentPage = p,
totalItems = the full filtered count (computed by countDocuments,
independent of the page slice), itemsPerPage = l, totalPages =
⌈total/l⌉, hasNextPage ↔ p < totalPages, hasPrevPage ↔ p > 1, and data
is the slice skipping (p-1)·l of the matching entities sorted by
creation time descending, taking at most l.  (With a subjectId filter
the test-results endpoint instead reports the post-filter page length;
see the counterexample.)  The spec instance total=25, limit=10, page=3
gives data length 5, totalPages 3, hasNextPage false, hasPrevPage true. -/
theorem C8_pagination_contract :
    (∀ (gs : List Graduate) (q : GraduateListQuery),
      (getGraduates gs q).pagination.currentPage = q.page ∧
      (getGraduates gs q).pagination.totalItems =
        (gs.filter (matchesGraduateQuery q)).length ∧
      (getGraduates gs q).pagination.itemsPerPage = q.limit ∧
      (getGraduates gs q).pagination.totalPages =
        (⌈(((gs.filter (matchesGraduateQuery q)).length : ℚ)) /
          ((q.limit : ℕ) : ℚ)⌉).toNat ∧
      ((getGraduates gs q).pagination.hasNextPage = true ↔
        q.page < (getGraduates gs q).pagination.totalPages) ∧
      ((getGraduates gs q).pagination.hasPrevPage = true ↔ 1 < q.page) ∧
      (getGraduates gs q).data =
        ((sortDescBy Graduate.createdAt
          (gs.filter (matchesGraduateQuery q))).drop
            ((q.page - 1) * q.limit)).take q.limit ∧
      (getGraduates gs q).data.length =
        min q.limit ((gs.filter (matchesGraduateQuery q)).length -
          (q.page - 1) * q.limit)) ∧
    (∀ (st : Store) (q : TestResultListQuery), q.subjectId = none →
      (getTestResults st q).pagination.currentPage = q.page ∧
      (getTestResults st q).pagination.totalItems =
        (st.testResults.filter (matchesTestResultQuery q)).length ∧
      (getTestResults st q).pagination.totalItems = specFullFilteredCount st q ∧
      (getTestResults st q).pagination.itemsPerPage = q.limit ∧
      (getTestResults st q).pagination.totalPages =
        (⌈(((st.testResults.filter (matchesTestResultQuery q)).length : ℚ)) /
          ((q.limit : ℕ) : ℚ)⌉).toNat ∧
      ((getTestResults st q).pagination.hasNextPage = true ↔
        q.page < (getTestResults st q).pagination.totalPages) ∧
      ((getTestResults st q).pagination.hasPrevPage = true ↔ 1 < q.page) ∧
      (getTestResults st q).data =
        ((sortDescBy TestResult.createdAt
          (st.testResults.filter (matchesTestResultQuery q))).drop
            ((q.page - 1) * q.limit)).take q.limit ∧
      (getTestResults st q).data.length =
        min q.limit ((st.testResults.filter (matchesTestResultQuery q)).length -
          (q.page - 1) * q.limit)) ∧
    ((getGraduates gListW qGradW).pagination.totalItems = 25 ∧
      (getGraduates gListW qGradW).data.length = 5 ∧
      (getGraduates gListW qGradW).pagination.totalPages = 3 ∧
      (getGraduates gListW qGradW).pagination.hasNextPage = false ∧
      (getGraduates gListW qGradW).pagination.hasPrevPage = true) := by
  have hceil : jsCeilDiv 25 10 = 3 := by
    rw [jsCeilDiv_eq_ceil]
    have h : ⌈((25 : ℕ) : ℚ) / ((10 : ℕ) : ℚ)⌉ = 3 := by
      rw [Int.ceil_eq_iff]
      constructor <;> push_cast <;> norm_num
    rw [h]
    rfl
  have hGrad : ∀ (gs : List Graduate) (q : GraduateListQuery),
      (getGraduates gs q).pagination.currentPage = q.page ∧
      (getGraduates gs q).pagination.totalItems =
        (gs.filter (matchesGraduateQuery q)).length ∧
      (getGraduates gs q).pagination.itemsPerPage = q.limit ∧
      (getGraduates gs q).pagination.totalPages =
        (⌈(((gs.filter (matchesGraduateQuery q)).length : ℚ)) /
          ((q.limit : ℕ) : ℚ)⌉).toNat ∧
      ((getGraduates gs q).pagination.hasNextPage = true ↔
        q.page < (getGraduates gs q).pagination.totalPages) ∧
      ((getGraduates gs q).pagination.hasPrevPage = true ↔ 1 < q.page) ∧
      (getGraduates gs q).data =
        ((sortDescBy Graduate.createdAt
          (gs.filter (matchesGraduateQuery q))).drop
            ((q.page - 1) * q.limit)).take q.limit ∧
      (getGraduates gs q).data.length =
        min q.limit ((gs.filter (matchesGraduateQuery q)).length -
          (q.page - 1) * q.limit) := by
    intro gs q
    refine ⟨rfl, rfl, rfl, jsCeilDiv_eq_ceil _ _, ?_, ?_, rfl, ?_⟩
    · simp [getGraduates, mkPagination]
    · simp [getGraduates, mkPagination]
    · show (((sortDescBy Graduate.createdAt
        (gs.filter (matchesGraduateQuery q))).drop
          ((q.page - 1) * q.limit)).take q.limit).length = _
      rw [List.length_take, List.length_drop, sortDescBy_length]
  have hfilter : gListW.filter (matchesGraduateQuery qGradW) = gListW :=
    List.filter_eq_self.mpr (by intro g hg; simp [matchesGraduateQuery, qGradW])
  have hlen : (gListW.filter (matchesGraduateQuery qGradW)).length = 25 := by
    rw [hfilter]
    simp [gListW]
  refine ⟨hGrad, ?_, ?_, ?_, ?_, ?_, ?_⟩
  · intro st q hsub
    refine ⟨?_, ?_, ?_, ?_, ?_, ?_, ?_, ?_, ?_⟩
    · simp [getTestResults, hsub, mkPagination]
    · simp [getTestResults, hsub, mkPagination]
    · simp [getTestResults, hsub, mkPagination, specFullFilteredCount]
    · simp [getTestResults, hsub, mkPagination]
    · simp [getTestResults, hsub, mkPagination, jsCeilDiv_eq_ceil]
    · simp [getTestResults, hsub, mkPagination]
    · simp [getTestResults, hsub, mkPagination]
    · simp [getTestResults, hsub]
    · simp only [getTestResults, hsub]
      rw [List.length_take, List.length_drop, sortDescBy_length]
  · exact hlen
  · have h8 := (hGrad gListW qGradW).2.2.2.2.2.2.2
    rw [h8, hlen]
    rfl
  · have h4 : (getGraduates gListW qGradW).pagination.totalPages =
        jsCeilDiv ((gListW.filter (matchesGraduateQuery qGradW)).length) 10 := rfl
    rw [h4, hlen, hceil]
  · have h5 : (getGraduates gListW qGradW).pagination.hasNextPage =
        decide (3 < jsCeilDiv ((gListW.filter (matchesGraduateQuery qGradW)).length) 10) := rfl
    rw [h5, hlen, hceil]
    rfl
  · rfl

/-- C8 witness: without a subjectId filter (query qTRnone on stC8) the
reported totalItems is the full filtered count, here 3. -/
theorem C8_pagination_contract_witness :
    qTRnone.subjectId = none ∧
    (getTestResults stC8 qTRnone).pagination.totalItems =
      specFullFilteredCount stC8 qTRnone ∧
    (getTestResults stC8 qTRnone).pagination.totalItems = 3 :=
  ⟨rfl, (C8_pagination_contract.2.1 stC8 qTRnone rfl).2.2.1, by decide⟩
